import Mathlib

/-!
Verification development for the poll-room service: a shallow embedding of the
poll creation route, the vote submission route, the poll fetch route, the SSE
stream route (subscription registry and broadcast), and the client percentage
helper, together with theorems about them.

Conventions of the embedding:
* Database rows are Lean structures; the store is a pair of lists (polls,
  votes).  Prisma `findUnique` / `findFirst` become `List.find?` on those
  lists; `findFirst`-used-for-truthiness becomes `List.any`.
* JavaScript numbers arriving in a request body are modelled by `JsNum`
  (not-a-number-typed value, NaN, or a rational), so that the route's
  `typeof`/comparison behaviour on NaN and fractional values is captured.
* Timestamps are integers (milliseconds, as `Date.now()`).
* SSE controllers are identified by natural numbers; the in-memory
  `connections` map becomes an association list from poll id to handle list.
-/

namespace PollRoom

/-- A row of the `Poll` table (migration.sql): id, question, options,
creation timestamp.  The `updatedAt` column is never read by the routes and
is omitted. -/
structure Poll where
  id : String
  question : String
  options : List String
  createdAt : Int
deriving DecidableEq, Repr

/-- A row of the `Vote` table (migration.sql): poll id, option index,
fingerprint, ip address, user agent, creation timestamp.  The store-generated
primary key `id` is never read by any route and is omitted. -/
structure Vote where
  pollId : String
  optionIndex : Int
  fingerprint : String
  ipAddress : String
  userAgent : String
  createdAt : Int
deriving DecidableEq, Repr

/-- The relational store the routes talk to through prisma. -/
structure Store where
  polls : List Poll
  votes : List Vote
deriving DecidableEq, Repr

/-- `prisma.poll.findUnique({ where: { id: pollId } })`. -/
def findPoll (s : Store) (pid : String) : Option Poll :=
  s.polls.find? (fun p => p.id == pid)

/-- The votes belonging to a poll, projected to their option index:
`poll.votes` under the `include` of the fetch/stream routes, or
`prisma.vote.findMany({ where: { pollId }, select: { optionIndex } })`. -/
def votesFor (s : Store) (pid : String) : List Int :=
  (s.votes.filter (fun v => v.pollId == pid)).map (fun v => v.optionIndex)

/-- One step of the count loop shared by the fetch, vote and stream routes:
`if (vote.optionIndex >= 0 && vote.optionIndex < poll.options.length)
voteCounts[vote.optionIndex]++`. -/
def bump (acc : List Nat) (i : Int) (n : Nat) : List Nat :=
  if 0 ≤ i ∧ i < (n : Int) then acc.set i.toNat (acc.getD i.toNat 0 + 1) else acc

/-- `const voteCounts = new Array(n).fill(0); votes.forEach(...)`: the
aggregation loop of the fetch, vote and stream routes. -/
def tally (n : Nat) (vs : List Int) : List Nat :=
  vs.foldl (fun acc i => bump acc i n) (List.replicate n 0)

/-- A JavaScript value standing in the `optionIndex` field of a vote request
body: a value that is not of type number, NaN (which is of type number), or
an ordinary number modelled as a rational. -/
inductive JsNum where
  | notNum : JsNum
  | nan : JsNum
  | num : ℚ → JsNum
deriving DecidableEq, Repr

/-- `typeof optionIndex !== number || optionIndex < 0` (vote route, first
validation).  NaN compares false under `< 0`, so it passes. -/
def JsNum.failsPrecheck : JsNum → Bool
  | .notNum => true
  | .nan => false
  | .num q => decide (q < 0)

/-- `optionIndex >= poll.options.length` (vote route, bounds check after the
poll is resolved).  NaN compares false under `>=`, so it passes. -/
def JsNum.failsBound : JsNum → Nat → Bool
  | .notNum, _ => false
  | .nan, _ => false
  | .num q, n => decide ((n : ℚ) ≤ q)

/-- The store column `optionIndex` is `INTEGER` (migration.sql), so
`prisma.vote.create` accepts the value only when it is an integer; NaN or a
fractional number makes the insert throw, which the route's catch block turns
into a generic 500.  `toInt` is the integer the store would record. -/
def JsNum.toInt : JsNum → Option Int
  | .notNum => none
  | .nan => none
  | .num q => if q.den = 1 then some q.num else none

/-- JavaScript `String.prototype.trim()`, embedded structurally so that the
kernel can evaluate it: drop whitespace from both ends of the character
list. -/
def jsTrim (s : String) : String :=
  String.mk
    (((s.data.dropWhile Char.isWhitespace).reverse.dropWhile
      Char.isWhitespace).reverse)

/-- The origin-address derivation of the vote route:
`headers.get(x-forwarded-for)?.split(,)[0].trim() || headers.get(x-real-ip)
|| unknown`, with JavaScript falsiness of the empty string. -/
def resolveIp (xff xri : Option String) : String :=
  let fwd := match xff with
    | none => ""
    | some st => jsTrim ((st.splitOn ",").headD "")
  if fwd ≠ "" then fwd
  else match xri with
    | none => "unknown"
    | some r => if r ≠ "" then r else "unknown"

/-- The outcomes of the vote route, one per return site. -/
inductive VoteOutcome where
  | invalidOption : VoteOutcome
  | missingIdentity : VoteOutcome
  | pollNotFound : VoteOutcome
  | duplicateIdentity : VoteOutcome
  | rateLimited : VoteOutcome
  | storeError : VoteOutcome
  | success : List Nat → Nat → VoteOutcome
deriving DecidableEq, Repr

/-- The HTTP status the vote route attaches to each outcome. -/
def statusOf : VoteOutcome → Nat
  | .invalidOption => 400
  | .missingIdentity => 400
  | .pollNotFound => 404
  | .duplicateIdentity => 409
  | .rateLimited => 429
  | .storeError => 500
  | .success _ _ => 200

def VoteOutcome.isSuccess : VoteOutcome → Bool
  | .success _ _ => true
  | _ => false

/-- The duplicate-fingerprint query of the vote route:
`prisma.vote.findFirst({ where: { pollId, fingerprint } })`, used only for
truthiness. -/
def hasDuplicate (s : Store) (pid fp : String) : Bool :=
  s.votes.any (fun v => v.pollId == pid && v.fingerprint == fp)

/-- The rate-limit query of the vote route:
`prisma.vote.findFirst({ where: { pollId, ipAddress, createdAt: { gte:
new Date(Date.now() - 60 * 1000) } } })`, used only for truthiness.  The
window enforced by the code is 60 seconds (the adjacent comment says five
minutes). -/
def hasRecentFromIp (s : Store) (pid ip : String) (now : Int) : Bool :=
  s.votes.any (fun v =>
    v.pollId == pid && v.ipAddress == ip && decide (now - 60000 ≤ v.createdAt))

/-- The POST vote route (`src/unnamed/part_002`, first file), as a function of
the parsed request: poll id, body fields, the two ip headers, the user-agent
header, and the current time in milliseconds.  A `fingerprint` of `none`
covers both an absent field and a non-string one; JavaScript falsiness makes
the empty string equivalent to absent.  Returns the outcome together with the
resulting store. -/
def submitVote (s : Store) (pid : String) (optionIndex : JsNum)
    (fingerprint : Option String) (xff xri ua : Option String) (now : Int) :
    VoteOutcome × Store :=
  if optionIndex.failsPrecheck then (.invalidOption, s)
  else
    match fingerprint with
    | none => (.missingIdentity, s)
    | some fp =>
      if fp = "" ∨ fp = "server" then (.missingIdentity, s)
      else
        match findPoll s pid with
        | none => (.pollNotFound, s)
        | some poll =>
          if optionIndex.failsBound poll.options.length then (.invalidOption, s)
          else if hasDuplicate s pid fp then (.duplicateIdentity, s)
          else if hasRecentFromIp s pid (resolveIp xff xri) now then (.rateLimited, s)
          else
            match optionIndex.toInt with
            | none => (.storeError, s)
            | some idx =>
              let s2 : Store := { s with votes := s.votes ++
                [{ pollId := pid, optionIndex := idx, fingerprint := fp,
                   ipAddress := resolveIp xff xri, userAgent := ua.getD "unknown",
                   createdAt := now }] }
              (.success (tally poll.options.length (votesFor s2 pid))
                (votesFor s2 pid).length, s2)

/-- The JSON body of a successful poll fetch (`src/unnamed/part_001`). -/
structure FetchPayload where
  id : String
  question : String
  options : List String
  voteCounts : List Nat
  totalVotes : Nat
  createdAt : Int
deriving DecidableEq, Repr

/-- The GET poll route (`src/unnamed/part_001`): resolve the poll with its
votes, tally the in-bounds option indices, report every scanned vote in the
total.  `none` is the 404 response. -/
def fetchPoll (s : Store) (pid : String) : Option FetchPayload :=
  match findPoll s pid with
  | none => none
  | some poll =>
    let vs := votesFor s pid
    some { id := poll.id, question := poll.question, options := poll.options,
           voteCounts := tally poll.options.length vs,
           totalVotes := vs.length, createdAt := poll.createdAt }

/-- The `data` object of an SSE `update` event. -/
structure UpdateMessage where
  voteCounts : List Nat
  totalVotes : Nat
deriving DecidableEq, Repr

/-- The message computed by `sendPollUpdate` in the stream route; `none` when
the poll does not resolve (the function then sends nothing). -/
def sendPollUpdateMessage (s : Store) (pid : String) : Option UpdateMessage :=
  match findPoll s pid with
  | none => none
  | some poll =>
    let vs := votesFor s pid
    some { voteCounts := tally poll.options.length vs, totalVotes := vs.length }

/-- The message computed by `broadcastPollUpdate` in the stream route and
written to every connected controller; `none` when the poll does not
resolve. -/
def broadcastUpdateMessage (s : Store) (pid : String) : Option UpdateMessage :=
  match findPoll s pid with
  | none => none
  | some poll =>
    let vs := votesFor s pid
    some { voteCounts := tally poll.options.length vs, totalVotes := vs.length }

/-- `Math.round` on a non-negative rational: round half up. -/
def jsRound (q : ℚ) : Int := Int.floor (q + 1 / 2)

/-- `getPercentage` from the poll page (`src/app/poll/[id]/page.tsx`):
zero when the total is zero, otherwise `Math.round((count / total) * 100)`. -/
def getPercentage (count total : Nat) : Int :=
  if total = 0 then 0 else jsRound (((count : ℚ) / (total : ℚ)) * 100)

/-- The result of the create-poll route (`src/unnamed/part_002`, second
file): a 400 validation response or the created poll data with its share
url. -/
inductive CreateResult where
  | badRequest : String → CreateResult
  | created : String → String → List String → String → CreateResult
deriving DecidableEq, Repr

def CreateResult.isCreated : CreateResult → Bool
  | .badRequest _ => false
  | .created _ _ _ _ => true

/-- The option filter of the create-poll route:
`options.filter((opt) => typeof opt === string && opt.trim().length > 0)`.
An entry of `none` stands for a non-string array element. -/
def validOptions (options : List (Option String)) : List (Option String) :=
  options.filter (fun o =>
    match o with
    | none => false
    | some t => jsTrim t ≠ "")

/-- The POST create-poll route, as a function of the id the store will assign
(`nanoid(10)`), the `NEXT_PUBLIC_APP_URL` environment value, and the parsed
body.  `question = none` stands for an absent or non-string question;
`options = none` for a body whose `options` is not an array, and each `none`
entry for a non-string element. -/
def createPoll (newId : String) (baseUrl : Option String)
    (question : Option String) (options : Option (List (Option String))) :
    CreateResult :=
  match question with
  | none => .badRequest "Question is required"
  | some q =>
    if jsTrim q = "" then .badRequest "Question is required"
    else
      match options with
      | none => .badRequest "At least 2 options are required"
      | some os =>
        if os.length < 2 then .badRequest "At least 2 options are required"
        else
          let valid := validOptions os
          if valid.length < 2 then .badRequest "At least 2 valid options are required"
          else if valid.length > 10 then .badRequest "Maximum 10 options allowed"
          else
            .created newId (jsTrim q)
              (valid.map (fun o => jsTrim (o.getD "")))
              ((baseUrl.getD "http://localhost:3000") ++ "/poll/" ++ newId)

/-- The in-memory `connections` map of the stream route, with SSE controllers
identified by naturals: an association list from poll id to the list of
handles subscribed to that poll. -/
abbrev Registry := List (String × List Nat)

/-- `connections.get(pid)` (with `has` as `isSome`). -/
def regLookup (r : Registry) (pid : String) : Option (List Nat) :=
  (r.find? (fun e => e.1 == pid)).map (fun e => e.2)

/-- The subscribe step of the stream route `start` callback:
`if (!connections.has(pollId)) connections.set(pollId, new Set());
connections.get(pollId)!.add(controller)`. -/
def subscribe (r : Registry) (pid : String) (h : Nat) : Registry :=
  match regLookup r pid with
  | none => r ++ [(pid, [h])]
  | some _ =>
      r.map (fun e =>
        if e.1 == pid then (e.1, if e.2.contains h then e.2 else e.2 ++ [h])
        else e)

/-- The abort-listener cleanup of the stream route: delete the controller
from the per-poll set, and delete the per-poll entry once the set is
empty. -/
def unsubscribe (r : Registry) (pid : String) (h : Nat) : Registry :=
  match regLookup r pid with
  | none => r
  | some l =>
      let rest := l.filter (fun x => x ≠ h)
      if rest.isEmpty then r.filter (fun e => e.1 ≠ pid)
      else r.map (fun e => if e.1 == pid then (e.1, rest) else e)

/-- The registry effect of `broadcastPollUpdate`: if the poll has no entry or
an empty one, return unchanged; otherwise every controller whose `enqueue`
throws (`fails h = true`) is deleted from the per-poll set, and the entry is
kept even when the set becomes empty. -/
def publishClean (r : Registry) (pid : String) (fails : Nat → Bool) : Registry :=
  match regLookup r pid with
  | none => r
  | some l =>
      if l.isEmpty then r
      else r.map (fun e =>
        if e.1 == pid then (e.1, e.2.filter (fun h => !(fails h))) else e)

/-- No poll id is mapped to an empty handle set. -/
def noEmptyEntries (r : Registry) : Prop := ∀ e ∈ r, e.2 ≠ []

instance (r : Registry) : Decidable (noEmptyEntries r) := by
  unfold noEmptyEntries
  infer_instance

theorem bump_length (acc : List Nat) (i : Int) (n : Nat) :
    (bump acc i n).length = acc.length := by
  unfold bump
  split
  · exact List.length_set acc i.toNat _
  · rfl

theorem foldl_bump_length (n : Nat) (vs : List Int) (acc : List Nat) :
    (vs.foldl (fun a i => bump a i n) acc).length = acc.length := by
  induction vs generalizing acc with
  | nil => rfl
  | cons v vs ih =>
      simp only [List.foldl_cons]
      rw [ih, bump_length]

theorem tally_length (n : Nat) (vs : List Int) : (tally n vs).length = n := by
  unfold tally
  rw [foldl_bump_length, List.length_replicate]

theorem sum_set_getD_succ (l : List Nat) (i : Nat) (h : i < l.length) :
    (l.set i (l.getD i 0 + 1)).sum = l.sum + 1 := by
  induction l generalizing i with
  | nil => simp at h
  | cons a t ih =>
      cases i with
      | zero =>
          simp [List.getD]
          omega
      | succ j =>
          simp only [List.length_cons, Nat.succ_lt_succ_iff] at h
          simp only [List.set, List.getD_cons_succ, List.sum_cons]
          rw [ih j h]
          omega

theorem bump_sum (acc : List Nat) (i : Int) (n : Nat) (hlen : acc.length = n) :
    (bump acc i n).sum
      = acc.sum + (if 0 ≤ i ∧ i < (n : Int) then 1 else 0) := by
  unfold bump
  split
  · next h =>
      apply sum_set_getD_succ
      rw [hlen]
      omega
  · next h => simp

theorem foldl_bump_sum (n : Nat) (vs : List Int) (acc : List Nat)
    (hlen : acc.length = n) :
    (vs.foldl (fun a i => bump a i n) acc).sum
      = acc.sum + (vs.filter (fun i => decide (0 ≤ i ∧ i < (n : Int)))).length := by
  induction vs generalizing acc with
  | nil => simp
  | cons v vs ih =>
      simp only [List.foldl_cons, List.filter_cons]
      rw [ih (bump acc v n) (by rw [bump_length, hlen])]
      rw [bump_sum acc v n hlen]
      by_cases h : 0 ≤ v ∧ v < (n : Int)
      · simp [h]
        omega
      · simp [h]

theorem tally_sum (n : Nat) (vs : List Int) :
    (tally n vs).sum
      = (vs.filter (fun i => decide (0 ≤ i ∧ i < (n : Int)))).length := by
  unfold tally
  rw [foldl_bump_sum n vs _ (List.length_replicate n 0)]
  simp

theorem tally_sum_le (n : Nat) (vs : List Int) : (tally n vs).sum ≤ vs.length := by
  rw [tally_sum]
  exact List.length_filter_le _ vs

theorem tally_sum_eq (n : Nat) (vs : List Int)
    (h : ∀ i ∈ vs, 0 ≤ i ∧ i < (n : Int)) : (tally n vs).sum = vs.length := by
  rw [tally_sum]
  have : vs.filter (fun i => decide (0 ≤ i ∧ i < (n : Int))) = vs := by
    rw [List.filter_eq_self]
    intro a ha
    exact decide_eq_true (h a ha)
  rw [this]

theorem mem_votesFor (s : Store) (pid : String) (i : Int) :
    i ∈ votesFor s pid ↔ ∃ v ∈ s.votes, v.pollId = pid ∧ v.optionIndex = i := by
  unfold votesFor
  simp only [List.mem_map, List.mem_filter, beq_iff_eq]
  constructor
  · rintro ⟨v, ⟨hv, hpid⟩, hoi⟩
    exact ⟨v, hv, hpid, hoi⟩
  · rintro ⟨v, hv, hpid, hoi⟩
    exact ⟨v, ⟨hv, hpid⟩, hoi⟩

theorem hasDuplicate_iff (s : Store) (pid fp : String) :
    hasDuplicate s pid fp = true ↔
      ∃ v ∈ s.votes, v.pollId = pid ∧ v.fingerprint = fp := by
  unfold hasDuplicate
  simp [List.any_eq_true, Bool.and_eq_true, beq_iff_eq]

theorem hasRecentFromIp_iff (s : Store) (pid ip : String) (now : Int) :
    hasRecentFromIp s pid ip now = true ↔
      ∃ v ∈ s.votes, v.pollId = pid ∧ v.ipAddress = ip ∧ now - 60000 ≤ v.createdAt := by
  unfold hasRecentFromIp
  simp [List.any_eq_true, Bool.and_eq_true, beq_iff_eq, decide_eq_true_iff, and_assoc]

/-- C8: the display percentage is `round(100 * count / total)`, and when the
total is zero every percentage is defined to be zero. -/
theorem getPercentage_round_and_zero (count total : Nat) :
    getPercentage count total
      = if total = 0 then 0
        else jsRound (100 * (count : ℚ) / (total : ℚ)) := by
  unfold getPercentage
  by_cases h : total = 0
  · simp [h]
  · rw [if_neg h, if_neg h]
    congr 1
    ring

/-- C1 (counterexample): with a ledger holding one vote whose stored option
index (5) is out of the two-option poll's bounds, both the fetch-poll and the
broadcast aggregation report counts summing to 0 but a total of 1, so
`sum(counts) = total` fails on that ledger state. -/
theorem aggregate_sum_counterexample :
    (fetchPoll ⟨[⟨"p1", "Q", ["A", "B"], 0⟩],
        [⟨"p1", 5, "f1", "unknown", "ua", 0⟩]⟩ "p1").map
        (fun pay => pay.voteCounts.sum == pay.totalVotes) = some false ∧
    (broadcastUpdateMessage ⟨[⟨"p1", "Q", ["A", "B"], 0⟩],
        [⟨"p1", 5, "f1", "unknown", "ua", 0⟩]⟩ "p1").map
        (fun m => m.voteCounts.sum == m.totalVotes) = some false := by
  exact ⟨rfl, rfl⟩

/-- C1 (amended): in both the fetch-poll and the broadcast aggregation the
sum of the per-option counts never exceeds the reported total, and equals the
total on every ledger state in which each of the poll's vote records stores
an option index within the poll's current bounds (which is what admission
control enforces); out-of-bounds records are counted by the total but by no
per-option count. -/
theorem aggregate_sum_le_total (s : Store) (pid : String) (poll : Poll)
    (hp : findPoll s pid = some poll) :
    (∀ pay, fetchPoll s pid = some pay →
        pay.voteCounts.sum ≤ pay.totalVotes ∧
        ((∀ v ∈ s.votes, v.pollId = pid →
            0 ≤ v.optionIndex ∧ v.optionIndex < (poll.options.length : Int)) →
          pay.voteCounts.sum = pay.totalVotes)) ∧
    (∀ m, broadcastUpdateMessage s pid = some m →
        m.voteCounts.sum ≤ m.totalVotes ∧
        ((∀ v ∈ s.votes, v.pollId = pid →
            0 ≤ v.optionIndex ∧ v.optionIndex < (poll.options.length : Int)) →
          m.voteCounts.sum = m.totalVotes)) := by
  have hin : ∀ (hbnd : ∀ v ∈ s.votes, v.pollId = pid →
      0 ≤ v.optionIndex ∧ v.optionIndex < (poll.options.length : Int)),
      ∀ i ∈ votesFor s pid, 0 ≤ i ∧ i < (poll.options.length : Int) := by
    intro hbnd i hi
    rcases (mem_votesFor s pid i).1 hi with ⟨v, hv, hpid, hoi⟩
    rw [← hoi]
    exact hbnd v hv hpid
  constructor
  · intro pay hpay
    unfold fetchPoll at hpay
    rw [hp] at hpay
    cases hpay
    refine ⟨tally_sum_le _ _, fun hbnd => tally_sum_eq _ _ (hin hbnd)⟩
  · intro m hm
    unfold broadcastUpdateMessage at hm
    rw [hp] at hm
    cases hm
    refine ⟨tally_sum_le _ _, fun hbnd => tally_sum_eq _ _ (hin hbnd)⟩

/-- C1 (witness): the amended theorem applied to a concrete store with one
in-bounds vote. -/
theorem aggregate_sum_le_total_witness :
    (FetchPayload.mk "p1" "Q" ["A", "B"] [0, 1] 1 0).voteCounts.sum
      = (FetchPayload.mk "p1" "Q" ["A", "B"] [0, 1] 1 0).totalVotes := by
  have h := aggregate_sum_le_total
    ⟨[⟨"p1", "Q", ["A", "B"], 0⟩], [⟨"p1", 1, "f1", "unknown", "ua", 0⟩]⟩
    "p1" ⟨"p1", "Q", ["A", "B"], 0⟩ rfl
  exact (h.1 (FetchPayload.mk "p1" "Q" ["A", "B"] [0, 1] 1 0) rfl).2 (by decide)

theorem submitVote_checksPassed (s : Store) (pid f : String) (oi : JsNum)
    (xff xri ua : Option String) (now : Int) (poll : Poll)
    (h1 : oi.failsPrecheck = false) (h2 : f ≠ "") (h3 : f ≠ "server")
    (hp : findPoll s pid = some poll)
    (hb : oi.failsBound poll.options.length = false)
    (hd : hasDuplicate s pid f = false) :
    submitVote s pid oi (some f) xff xri ua now
      = if hasRecentFromIp s pid (resolveIp xff xri) now then (.rateLimited, s)
        else
          match oi.toInt with
          | none => (.storeError, s)
          | some idx =>
            let s2 : Store := { s with votes := s.votes ++
              [{ pollId := pid, optionIndex := idx, fingerprint := f,
                 ipAddress := resolveIp xff xri, userAgent := ua.getD "unknown",
                 createdAt := now }] }
            (.success (tally poll.options.length (votesFor s2 pid))
              (votesFor s2 pid).length, s2) := by
  unfold submitVote
  rw [h1]
  simp only [Bool.false_eq_true, if_false]
  rw [if_neg (by simp [h2, h3])]
  rw [hp]
  dsimp only
  rw [hb]
  simp only [Bool.false_eq_true, if_false]
  rw [hd]
  simp only [Bool.false_eq_true, if_false]

theorem submitVote_afterValidation (s : Store) (pid f : String) (oi : JsNum)
    (xff xri ua : Option String) (now : Int) (poll : Poll)
    (h1 : oi.failsPrecheck = false) (h2 : f ≠ "") (h3 : f ≠ "server")
    (hp : findPoll s pid = some poll)
    (hb : oi.failsBound poll.options.length = false) :
    submitVote s pid oi (some f) xff xri ua now
      = if hasDuplicate s pid f then (.duplicateIdentity, s)
        else if hasRecentFromIp s pid (resolveIp xff xri) now then (.rateLimited, s)
        else
          match oi.toInt with
          | none => (.storeError, s)
          | some idx =>
            let s2 : Store := { s with votes := s.votes ++
              [{ pollId := pid, optionIndex := idx, fingerprint := f,
                 ipAddress := resolveIp xff xri, userAgent := ua.getD "unknown",
                 createdAt := now }] }
            (.success (tally poll.options.length (votesFor s2 pid))
              (votesFor s2 pid).length, s2) := by
  unfold submitVote
  rw [h1]
  simp only [Bool.false_eq_true, if_false]
  rw [if_neg (by simp [h2, h3])]
  rw [hp]
  dsimp only
  rw [hb]
  simp only [Bool.false_eq_true, if_false]

theorem submitVote_cases (s : Store) (pid : String) (oi : JsNum)
    (fp xff xri ua : Option String) (now : Int) :
    (∃ c, submitVote s pid oi fp xff xri ua now = (c, s) ∧ c.isSuccess = false) ∨
    (∃ f idx poll,
      fp = some f ∧ oi.toInt = some idx ∧ findPoll s pid = some poll ∧
      hasDuplicate s pid f = false ∧
      submitVote s pid oi fp xff xri ua now
        = (.success
            (tally poll.options.length (votesFor { s with votes := s.votes ++
              [{ pollId := pid, optionIndex := idx, fingerprint := f,
                 ipAddress := resolveIp xff xri, userAgent := ua.getD "unknown",
                 createdAt := now }] } pid))
            (votesFor { s with votes := s.votes ++
              [{ pollId := pid, optionIndex := idx, fingerprint := f,
                 ipAddress := resolveIp xff xri, userAgent := ua.getD "unknown",
                 createdAt := now }] } pid).length,
           { s with votes := s.votes ++
              [{ pollId := pid, optionIndex := idx, fingerprint := f,
                 ipAddress := resolveIp xff xri, userAgent := ua.getD "unknown",
                 createdAt := now }] })) := by
  unfold submitVote
  split
  · exact Or.inl ⟨_, rfl, rfl⟩
  · cases fp with
    | none => exact Or.inl ⟨_, rfl, rfl⟩
    | some f =>
        dsimp only
        split
        · exact Or.inl ⟨_, rfl, rfl⟩
        · split
          · exact Or.inl ⟨_, rfl, rfl⟩
          · next poll hp =>
              split
              · exact Or.inl ⟨_, rfl, rfl⟩
              · split
                · exact Or.inl ⟨_, rfl, rfl⟩
                · next hd =>
                    split
                    · exact Or.inl ⟨_, rfl, rfl⟩
                    · split
                      · exact Or.inl ⟨_, rfl, rfl⟩
                      · next idx hti =>
                          refine Or.inr ⟨f, idx, poll, rfl, hti, hp, ?_, rfl⟩
                          simpa using hd

/-- C3: the vote route appends exactly one vote record on success and leaves
the store unchanged on every rejection path (invalid option, missing
identity, poll not found, duplicate identity, rate limited, store error). -/
theorem submitVote_ledger_effect (s : Store) (pid : String) (oi : JsNum)
    (fp xff xri ua : Option String) (now : Int) :
    (submitVote s pid oi fp xff xri ua now).2.polls = s.polls ∧
    ((submitVote s pid oi fp xff xri ua now).1.isSuccess = true →
      (submitVote s pid oi fp xff xri ua now).2.votes
        = s.votes ++
          [{ pollId := pid, optionIndex := oi.toInt.getD 0,
             fingerprint := fp.getD "", ipAddress := resolveIp xff xri,
             userAgent := ua.getD "unknown", createdAt := now }]) ∧
    ((submitVote s pid oi fp xff xri ua now).1.isSuccess = false →
      (submitVote s pid oi fp xff xri ua now).2 = s) := by
  rcases submitVote_cases s pid oi fp xff xri ua now with
    ⟨c, hc, hcs⟩ | ⟨f, idx, poll, hfp, hti, hp, hd, heq⟩
  · refine ⟨by rw [hc], ?_, fun _ => by rw [hc]⟩
    intro h
    rw [hc] at h
    dsimp at h
    rw [h] at hcs
    cases hcs
  · refine ⟨by rw [heq], ?_, ?_⟩
    · intro _
      rw [heq]
      rw [hfp, hti]
      rfl
    · intro h
      rw [heq] at h
      dsimp [VoteOutcome.isSuccess] at h
      exact Bool.noConfusion h

/-- C3 (witness): a successful submission appends exactly the new vote; a
submission naming an absent poll leaves the store unchanged. -/
theorem submitVote_ledger_effect_witness :
    (submitVote ⟨[⟨"p1", "Q", ["A", "B"], 0⟩], []⟩ "p1" (.num 0) (some "f")
        none none none 5).2.votes
      = [⟨"p1", 0, "f", "unknown", "unknown", 5⟩] ∧
    (submitVote ⟨[⟨"p1", "Q", ["A", "B"], 0⟩], []⟩ "p2" (.num 0) (some "f")
        none none none 5).2
      = ⟨[⟨"p1", "Q", ["A", "B"], 0⟩], []⟩ := by
  constructor
  · have h := (submitVote_ledger_effect ⟨[⟨"p1", "Q", ["A", "B"], 0⟩], []⟩
      "p1" (.num 0) (some "f") none none none 5).2.1 (by decide)
    rw [h]
    rfl
  · exact (submitVote_ledger_effect ⟨[⟨"p1", "Q", ["A", "B"], 0⟩], []⟩
      "p2" (.num 0) (some "f") none none none 5).2.2 (by decide)

/-- C2: when the ledger already holds a vote with the submitted
(pollId, fingerprint) pair, the submission appends nothing and never
succeeds, and when it passes the earlier validation steps it is rejected
with the duplicate-identity conflict (HTTP 409). -/
theorem duplicate_identity_rejected (s : Store) (pid f : String) (oi : JsNum)
    (xff xri ua : Option String) (now : Int)
    (hdup : ∃ v ∈ s.votes, v.pollId = pid ∧ v.fingerprint = f) :
    (submitVote s pid oi (some f) xff xri ua now).2 = s ∧
    (submitVote s pid oi (some f) xff xri ua now).1.isSuccess = false ∧
    (∀ poll, oi.failsPrecheck = false → f ≠ "" → f ≠ "server" →
      findPoll s pid = some poll → oi.failsBound poll.options.length = false →
      (submitVote s pid oi (some f) xff xri ua now).1 = .duplicateIdentity ∧
      statusOf (submitVote s pid oi (some f) xff xri ua now).1 = 409) := by
  have hD : hasDuplicate s pid f = true := (hasDuplicate_iff s pid f).2 hdup
  have hmain : (submitVote s pid oi (some f) xff xri ua now).2 = s ∧
      (submitVote s pid oi (some f) xff xri ua now).1.isSuccess = false := by
    rcases submitVote_cases s pid oi (some f) xff xri ua now with
      ⟨c, hc, hcs⟩ | ⟨f2, idx, poll, hfp, hti, hp, hd, heq⟩
    · exact ⟨by rw [hc], by rw [hc]; exact hcs⟩
    · injection hfp with hf
      subst hf
      rw [hd] at hD
      cases hD
  refine ⟨hmain.1, hmain.2, ?_⟩
  intro poll h1 h2 h3 hp hb
  rw [submitVote_afterValidation s pid f oi xff xri ua now poll h1 h2 h3 hp hb]
  rw [hD]
  exact ⟨rfl, rfl⟩

/-- C2 (witness): the theorem applied to a store whose ledger already has a
vote by fingerprint f on poll p1. -/
theorem duplicate_identity_rejected_witness :
    (submitVote ⟨[⟨"p1", "Q", ["A", "B"], 0⟩],
        [⟨"p1", 0, "f", "1.2.3.4", "ua", 0⟩]⟩
        "p1" (.num 1) (some "f") none none none 999999).1 = .duplicateIdentity ∧
    (submitVote ⟨[⟨"p1", "Q", ["A", "B"], 0⟩],
        [⟨"p1", 0, "f", "1.2.3.4", "ua", 0⟩]⟩
        "p1" (.num 1) (some "f") none none none 999999).2
      = ⟨[⟨"p1", "Q", ["A", "B"], 0⟩], [⟨"p1", 0, "f", "1.2.3.4", "ua", 0⟩]⟩ := by
  have h := duplicate_identity_rejected
    ⟨[⟨"p1", "Q", ["A", "B"], 0⟩], [⟨"p1", 0, "f", "1.2.3.4", "ua", 0⟩]⟩
    "p1" "f" (.num 1) none none none 999999 (by decide)
  exact ⟨(h.2.2 ⟨"p1", "Q", ["A", "B"], 0⟩ (by decide) (by decide) (by decide)
    rfl (by decide)).1, h.1⟩

/-- C5: once a submission has passed poll resolution, the bounds check and
the duplicate check, it is rejected with the throttling signal (HTTP 429) if
and only if some vote on the same poll from the same resolved origin address
has a creation timestamp within the 60-second window enforced by the code
measured back from now. -/
theorem rate_limited_iff (s : Store) (pid f : String) (oi : JsNum)
    (xff xri ua : Option String) (now : Int) (poll : Poll)
    (h1 : oi.failsPrecheck = false) (h2 : f ≠ "") (h3 : f ≠ "server")
    (hp : findPoll s pid = some poll)
    (hb : oi.failsBound poll.options.length = false)
    (hd : hasDuplicate s pid f = false) :
    ((submitVote s pid oi (some f) xff xri ua now).1 = .rateLimited ∧
      statusOf (submitVote s pid oi (some f) xff xri ua now).1 = 429) ↔
      ∃ v ∈ s.votes, v.pollId = pid ∧ v.ipAddress = resolveIp xff xri ∧
        now - 60000 ≤ v.createdAt := by
  rw [submitVote_checksPassed s pid f oi xff xri ua now poll h1 h2 h3 hp hb hd]
  have hiff := hasRecentFromIp_iff s pid (resolveIp xff xri) now
  by_cases hr : hasRecentFromIp s pid (resolveIp xff xri) now = true
  · rw [if_pos hr]
    constructor
    · intro _
      exact hiff.1 hr
    · intro _
      exact ⟨rfl, rfl⟩
  · rw [if_neg hr]
    constructor
    · rintro ⟨hout, _⟩
      exfalso
      cases hti : oi.toInt with
      | none =>
          rw [hti] at hout
          exact VoteOutcome.noConfusion hout
      | some idx =>
          rw [hti] at hout
          exact VoteOutcome.noConfusion hout
    · intro hex
      exact absurd (hiff.2 hex) hr

/-- C5 (witness): a second headerless vote 30 seconds after the first, by a
fresh fingerprint, is rejected rate-limited; at 61 seconds it is not. -/
theorem rate_limited_iff_witness :
    (submitVote ⟨[⟨"p1", "Q", ["A", "B"], 0⟩],
        [⟨"p1", 0, "g", "unknown", "ua", 0⟩]⟩
        "p1" (.num 1) (some "f") none none none 30000).1 = .rateLimited ∧
    ¬ ((submitVote ⟨[⟨"p1", "Q", ["A", "B"], 0⟩],
        [⟨"p1", 0, "g", "unknown", "ua", 0⟩]⟩
        "p1" (.num 1) (some "f") none none none 61000).1 = .rateLimited ∧
      statusOf (submitVote ⟨[⟨"p1", "Q", ["A", "B"], 0⟩],
        [⟨"p1", 0, "g", "unknown", "ua", 0⟩]⟩
        "p1" (.num 1) (some "f") none none none 61000).1 = 429) := by
  constructor
  · exact ((rate_limited_iff ⟨[⟨"p1", "Q", ["A", "B"], 0⟩],
      [⟨"p1", 0, "g", "unknown", "ua", 0⟩]⟩ "p1" "f" (.num 1) none none none
      30000 ⟨"p1", "Q", ["A", "B"], 0⟩ (by decide) (by decide) (by decide) rfl
      (by decide) (by decide)).2 (by decide)).1
  · intro hcontra
    have hex := (rate_limited_iff ⟨[⟨"p1", "Q", ["A", "B"], 0⟩],
      [⟨"p1", 0, "g", "unknown", "ua", 0⟩]⟩ "p1" "f" (.num 1) none none none
      61000 ⟨"p1", "Q", ["A", "B"], 0⟩ (by decide) (by decide) (by decide) rfl
      (by decide) (by decide)).1 hcontra
    revert hex
    decide

/-- C10: with neither ip header present the resolved origin is the literal
"unknown", a successful headerless vote is recorded with that origin, and a
later headerless submission on the same poll within the 60-second window is
rejected rate-limited because "unknown" is matched as a single shared
origin. -/
theorem unknown_origin_shared (s : Store) (pid f : String) (oi : JsNum)
    (ua : Option String) (now : Int) :
    resolveIp none none = "unknown" ∧
    ((submitVote s pid oi (some f) none none ua now).1.isSuccess = true →
      (submitVote s pid oi (some f) none none ua now).2.votes
        = s.votes ++
          [{ pollId := pid, optionIndex := oi.toInt.getD 0, fingerprint := f,
             ipAddress := "unknown", userAgent := ua.getD "unknown",
             createdAt := now }]) ∧
    (∀ poll, oi.failsPrecheck = false → f ≠ "" → f ≠ "server" →
      findPoll s pid = some poll → oi.failsBound poll.options.length = false →
      hasDuplicate s pid f = false →
      (∃ v ∈ s.votes, v.pollId = pid ∧ v.ipAddress = "unknown" ∧
        now - 60000 ≤ v.createdAt) →
      (submitVote s pid oi (some f) none none ua now).1 = .rateLimited ∧
      statusOf (submitVote s pid oi (some f) none none ua now).1 = 429) := by
  refine ⟨rfl, ?_, ?_⟩
  · rcases submitVote_cases s pid oi (some f) none none ua now with
      ⟨c, hc, hcs⟩ | ⟨f2, idx, poll, hfp, hti, hp, hd, heq⟩
    · intro h
      rw [hc] at h
      dsimp at h
      rw [h] at hcs
      cases hcs
    · intro _
      injection hfp with hf
      subst hf
      rw [heq]
      rw [hti]
      rfl
  · intro poll h1 h2 h3 hp hb hd hex
    rw [submitVote_checksPassed s pid f oi none none ua now poll h1 h2 h3 hp hb hd]
    have hr : hasRecentFromIp s pid (resolveIp none none) now = true :=
      (hasRecentFromIp_iff s pid "unknown" now).2 hex
    rw [if_pos hr]
    exact ⟨rfl, rfl⟩

/-- C10 (witness): a first headerless vote is stored with origin "unknown";
a second headerless vote by a different fingerprint 30 seconds later is
rejected rate-limited. -/
theorem unknown_origin_shared_witness :
    (submitVote ⟨[⟨"p1", "Q", ["A", "B"], 0⟩], []⟩ "p1" (.num 0) (some "g")
        none none none 0).2.votes
      = [⟨"p1", 0, "g", "unknown", "unknown", 0⟩] ∧
    (submitVote ⟨[⟨"p1", "Q", ["A", "B"], 0⟩],
        [⟨"p1", 0, "g", "unknown", "unknown", 0⟩]⟩
        "p1" (.num 1) (some "f") none none none 30000).1 = .rateLimited := by
  constructor
  · have h := (unknown_origin_shared ⟨[⟨"p1", "Q", ["A", "B"], 0⟩], []⟩
      "p1" "g" (.num 0) none 0).2.1 (by decide)
    rw [h]
    rfl
  · exact ((unknown_origin_shared
      ⟨[⟨"p1", "Q", ["A", "B"], 0⟩], [⟨"p1", 0, "g", "unknown", "unknown", 0⟩]⟩
      "p1" "f" (.num 1) none 30000).2.2 ⟨"p1", "Q", ["A", "B"], 0⟩
      (by decide) (by decide) (by decide) rfl (by decide) (by decide)
      (by decide)).1

/-- C4 (counterexample): the route validates `optionIndex < 0` before
resolving the poll, so a submission naming a nonexistent poll with a negative
option index yields the invalid-option rejection, not poll-not-found as the
claim states. -/
theorem submit_order_counterexample :
    (submitVote ⟨[], []⟩ "p" (.num (-1)) (some "f") none none none 0).1
      = .invalidOption ∧
    (submitVote ⟨[], []⟩ "p" (.num (-1)) (some "f") none none none 0).1
      ≠ .pollNotFound := by
  exact ⟨by decide, by decide⟩

/-- C4 (amended): the actual check order is: optionIndex type and
non-negativity, then identity presence, then poll resolution, then the upper
bounds check.  A non-number or negative optionIndex yields InvalidOption
regardless of poll existence; PollNotFound is reached only with a numeric
non-negative (or NaN) optionIndex and a usable identity; an optionIndex that
is NaN, or fractional but inside the range, passes both bounds checks and is
never rejected InvalidOption — the fractional case fails at the store
instead of succeeding. -/
theorem submit_order_amended (s : Store) (pid : String) (oi : JsNum)
    (fp xff xri ua : Option String) (now : Int) :
    (oi.failsPrecheck = true →
      (submitVote s pid oi fp xff xri ua now).1 = .invalidOption) ∧
    (oi.failsPrecheck = false →
      (fp = none ∨ fp = some "" ∨ fp = some "server") →
      (submitVote s pid oi fp xff xri ua now).1 = .missingIdentity) ∧
    (∀ f, oi.failsPrecheck = false → fp = some f → f ≠ "" → f ≠ "server" →
      findPoll s pid = none →
      (submitVote s pid oi fp xff xri ua now).1 = .pollNotFound) ∧
    (∀ f poll, oi.failsPrecheck = false → fp = some f → f ≠ "" → f ≠ "server" →
      findPoll s pid = some poll → oi.failsBound poll.options.length = true →
      (submitVote s pid oi fp xff xri ua now).1 = .invalidOption) ∧
    (∀ f poll, fp = some f → f ≠ "" → f ≠ "server" →
      findPoll s pid = some poll → oi = .nan →
      (submitVote s pid oi fp xff xri ua now).1 ≠ .invalidOption) ∧
    (∀ f poll q, fp = some f → f ≠ "" → f ≠ "server" →
      findPoll s pid = some poll → oi = .num q → q.den ≠ 1 →
      oi.failsPrecheck = false → oi.failsBound poll.options.length = false →
      (submitVote s pid oi fp xff xri ua now).1 ≠ .invalidOption ∧
      (submitVote s pid oi fp xff xri ua now).1.isSuccess = false) := by
  refine ⟨?_, ?_, ?_, ?_, ?_, ?_⟩
  · intro h
    unfold submitVote
    rw [h]
    rfl
  · intro h1 hfp
    unfold submitVote
    rw [h1]
    simp only [Bool.false_eq_true, if_false]
    rcases hfp with h | h | h <;> subst h
    · rfl
    · rfl
    · rfl
  · intro f h1 hfp h2 h3 hp
    subst hfp
    unfold submitVote
    rw [h1]
    simp only [Bool.false_eq_true, if_false]
    rw [if_neg (by simp [h2, h3])]
    rw [hp]
  · intro f poll h1 hfp h2 h3 hp hb
    subst hfp
    unfold submitVote
    rw [h1]
    simp only [Bool.false_eq_true, if_false]
    rw [if_neg (by simp [h2, h3])]
    rw [hp]
    dsimp only
    rw [hb]
    rfl
  · intro f poll hfp h2 h3 hp hnan
    subst hfp
    subst hnan
    rw [submitVote_afterValidation s pid f .nan xff xri ua now poll rfl h2 h3 hp rfl]
    by_cases hd : hasDuplicate s pid f = true
    · rw [if_pos hd]
      intro hcontra
      exact VoteOutcome.noConfusion hcontra
    · rw [if_neg hd]
      by_cases hr : hasRecentFromIp s pid (resolveIp xff xri) now = true
      · rw [if_pos hr]
        intro hcontra
        exact VoteOutcome.noConfusion hcontra
      · rw [if_neg hr]
        intro hcontra
        exact VoteOutcome.noConfusion hcontra
  · intro f poll q hfp h2 h3 hp hq hden h1 hb
    subst hfp
    subst hq
    rw [submitVote_afterValidation s pid f (.num q) xff xri ua now poll h1 h2 h3 hp hb]
    have hti : (JsNum.num q).toInt = none := by
      unfold JsNum.toInt
      dsimp only
      rw [if_neg hden]
    by_cases hd : hasDuplicate s pid f = true
    · rw [if_pos hd]
      exact ⟨fun hcontra => VoteOutcome.noConfusion hcontra, rfl⟩
    · rw [if_neg hd]
      by_cases hr : hasRecentFromIp s pid (resolveIp xff xri) now = true
      · rw [if_pos hr]
        exact ⟨fun hcontra => VoteOutcome.noConfusion hcontra, rfl⟩
      · rw [if_neg hr]
        rw [hti]
        exact ⟨fun hcontra => VoteOutcome.noConfusion hcontra, rfl⟩

/-- C4 (witness): the amended order theorem applied at concrete inputs for
each of its six cases. -/
theorem submit_order_amended_witness :
    (submitVote ⟨[], []⟩ "p" (.num (-1)) (some "f") none none none 0).1
      = .invalidOption ∧
    (submitVote ⟨[], []⟩ "p" (.num 0) (some "server") none none none 0).1
      = .missingIdentity ∧
    (submitVote ⟨[⟨"p1", "Q", ["A", "B"], 0⟩], []⟩ "p2" (.num 0) (some "f")
        none none none 0).1 = .pollNotFound ∧
    (submitVote ⟨[⟨"p1", "Q", ["A", "B"], 0⟩], []⟩ "p1" (.num 7) (some "f")
        none none none 0).1 = .invalidOption ∧
    (submitVote ⟨[⟨"p1", "Q", ["A", "B"], 0⟩], []⟩ "p1" .nan (some "f")
        none none none 0).1 ≠ .invalidOption ∧
    (submitVote ⟨[⟨"p1", "Q", ["A", "B"], 0⟩], []⟩ "p1" (.num (mkRat 1 2))
        (some "f") none none none 0).1 ≠ .invalidOption := by
  refine ⟨?_, ?_, ?_, ?_, ?_, ?_⟩
  · exact (submit_order_amended ⟨[], []⟩ "p" (.num (-1)) (some "f")
      none none none 0).1 (by decide)
  · exact (submit_order_amended ⟨[], []⟩ "p" (.num 0) (some "server")
      none none none 0).2.1 (by decide) (Or.inr (Or.inr rfl))
  · exact (submit_order_amended ⟨[⟨"p1", "Q", ["A", "B"], 0⟩], []⟩ "p2"
      (.num 0) (some "f") none none none 0).2.2.1 "f" (by decide) rfl
      (by decide) (by decide) rfl
  · exact (submit_order_amended ⟨[⟨"p1", "Q", ["A", "B"], 0⟩], []⟩ "p1"
      (.num 7) (some "f") none none none 0).2.2.2.1 "f" ⟨"p1", "Q", ["A", "B"], 0⟩
      (by decide) rfl (by decide) (by decide) rfl (by decide)
  · exact (submit_order_amended ⟨[⟨"p1", "Q", ["A", "B"], 0⟩], []⟩ "p1"
      .nan (some "f") none none none 0).2.2.2.2.1 "f" ⟨"p1", "Q", ["A", "B"], 0⟩
      rfl (by decide) (by decide) rfl rfl
  · exact ((submit_order_amended ⟨[⟨"p1", "Q", ["A", "B"], 0⟩], []⟩ "p1"
      (.num (mkRat 1 2)) (some "f") none none none 0).2.2.2.2.2 "f"
      ⟨"p1", "Q", ["A", "B"], 0⟩ (mkRat 1 2) rfl (by decide) (by decide) rfl rfl
      (by decide) (by decide) (by decide)).1

/-- C9: every result payload the system produces for a poll — fetch
response, submit-vote success response, and both SSE update builders — has a
voteCounts array whose length equals the poll's option count, whatever votes
the ledger holds. -/
theorem payload_counts_length (s : Store) (pid : String) :
    (∀ pay, fetchPoll s pid = some pay →
        pay.voteCounts.length = pay.options.length) ∧
    (∀ poll m, findPoll s pid = some poll →
        sendPollUpdateMessage s pid = some m →
        m.voteCounts.length = poll.options.length) ∧
    (∀ poll m, findPoll s pid = some poll →
        broadcastUpdateMessage s pid = some m →
        m.voteCounts.length = poll.options.length) ∧
    (∀ oi fp xff xri ua now cs t poll,
        (submitVote s pid oi fp xff xri ua now).1 = .success cs t →
        findPoll s pid = some poll →
        cs.length = poll.options.length) := by
  refine ⟨?_, ?_, ?_, ?_⟩
  · intro pay hpay
    unfold fetchPoll at hpay
    cases hp : findPoll s pid with
    | none => rw [hp] at hpay; cases hpay
    | some poll =>
        rw [hp] at hpay
        cases hpay
        exact tally_length _ _
  · intro poll m hp hm
    unfold sendPollUpdateMessage at hm
    rw [hp] at hm
    cases hm
    exact tally_length _ _
  · intro poll m hp hm
    unfold broadcastUpdateMessage at hm
    rw [hp] at hm
    cases hm
    exact tally_length _ _
  · intro oi fp xff xri ua now cs t poll hsub hp
    rcases submitVote_cases s pid oi fp xff xri ua now with
      ⟨c, hc, hcs⟩ | ⟨f, idx, poll2, hfp, hti, hp2, hd, heq⟩
    · rw [hc] at hsub
      dsimp at hsub
      rw [hsub] at hcs
      cases hcs
    · rw [heq] at hsub
      dsimp at hsub
      injection hsub with hcs2 ht
      rw [hp] at hp2
      injection hp2 with hpoll
      rw [← hcs2, ← hpoll]
      exact tally_length _ _

/-- C9 (witness): the theorem applied at a concrete store, including one
whose ledger has an out-of-bounds vote record. -/
theorem payload_counts_length_witness :
    (FetchPayload.mk "p1" "Q" ["A", "B"] [0, 0] 1 0).voteCounts.length
      = (FetchPayload.mk "p1" "Q" ["A", "B"] [0, 0] 1 0).options.length ∧
    (UpdateMessage.mk [0, 0] 1).voteCounts.length
      = (Poll.mk "p1" "Q" ["A", "B"] 0).options.length ∧
    ([1, 0] : List Nat).length = (Poll.mk "p1" "Q" ["A", "B"] 0).options.length := by
  refine ⟨?_, ?_, ?_⟩
  · exact (payload_counts_length
      ⟨[⟨"p1", "Q", ["A", "B"], 0⟩], [⟨"p1", 5, "f", "unknown", "ua", 0⟩]⟩
      "p1").1 (FetchPayload.mk "p1" "Q" ["A", "B"] [0, 0] 1 0) rfl
  · exact (payload_counts_length
      ⟨[⟨"p1", "Q", ["A", "B"], 0⟩], [⟨"p1", 5, "f", "unknown", "ua", 0⟩]⟩
      "p1").2.1 (Poll.mk "p1" "Q" ["A", "B"] 0) (UpdateMessage.mk [0, 0] 1)
      rfl rfl
  · exact (payload_counts_length ⟨[⟨"p1", "Q", ["A", "B"], 0⟩], []⟩
      "p1").2.2.2 (.num 0) (some "f") none none none 5 [1, 0] 1
      (Poll.mk "p1" "Q" ["A", "B"] 0) (by decide) rfl

/-- C6 (counterexample): a create request with options ["A", "B", ""] — one
blank entry — is accepted with the blank entry silently dropped, not
rejected as the claim states. -/
theorem createPoll_blank_option_counterexample :
    createPoll "id0" none (some "Q") (some [some "A", some "B", some ""])
      = .created "id0" "Q" ["A", "B"] "http://localhost:3000/poll/id0" ∧
    (createPoll "id0" none (some "Q")
        (some [some "A", some "B", some ""])).isCreated = true := by
  exact ⟨by decide, by decide⟩

/-- C6 (amended): create poll accepts a request exactly when the question is
a non-empty trimmed string and the entries that are non-empty strings after
trimming number between 2 and 10; blank or non-string entries are silently
dropped rather than causing rejection, and on success the stored options are
the surviving entries, trimmed. -/
theorem createPoll_accepts_iff (newId : String) (baseUrl : Option String)
    (question : Option String) (options : Option (List (Option String))) :
    ((createPoll newId baseUrl question options).isCreated = true ↔
      (∃ q, question = some q ∧ jsTrim q ≠ "" ∧
        ∃ os, options = some os ∧
          2 ≤ (validOptions os).length ∧ (validOptions os).length ≤ 10)) ∧
    (∀ i q2 os2 u,
      createPoll newId baseUrl question options = .created i q2 os2 u →
      ∃ os, options = some os ∧
        os2 = (validOptions os).map (fun o => jsTrim (o.getD ""))) := by
  unfold createPoll
  cases question with
  | none =>
      refine ⟨?_, ?_⟩
      · simp [CreateResult.isCreated]
      · intro i q2 os2 u hcontra
        exact CreateResult.noConfusion hcontra
  | some q =>
      dsimp only
      by_cases hq : jsTrim q = ""
      · rw [if_pos hq]
        refine ⟨?_, ?_⟩
        · simp only [CreateResult.isCreated]
          constructor
          · intro hcontra
            exact Bool.noConfusion hcontra
          · rintro ⟨q2, hq2, hq2ne, _⟩
            injection hq2 with hq2e
            exact absurd (hq2e ▸ hq) hq2ne
        · intro i q2 os2 u hcontra
          exact CreateResult.noConfusion hcontra
      · rw [if_neg hq]
        cases options with
        | none =>
            refine ⟨?_, ?_⟩
            · simp [CreateResult.isCreated]
            · intro i q2 os2 u hcontra
              exact CreateResult.noConfusion hcontra
        | some os =>
            dsimp only
            have hfl : (validOptions os).length ≤ os.length :=
              List.length_filter_le _ os
            by_cases hlen : os.length < 2
            · rw [if_pos hlen]
              refine ⟨?_, ?_⟩
              · simp only [CreateResult.isCreated]
                constructor
                · intro hcontra
                  exact Bool.noConfusion hcontra
                · rintro ⟨q2, _, _, os2, hos2, h2, _⟩
                  injection hos2 with hos2e
                  subst hos2e
                  omega
              · intro i q2 os2 u hcontra
                exact CreateResult.noConfusion hcontra
            · rw [if_neg hlen]
              by_cases hval2 : (validOptions os).length < 2
              · rw [if_pos hval2]
                refine ⟨?_, ?_⟩
                · simp only [CreateResult.isCreated]
                  constructor
                  · intro hcontra
                    exact Bool.noConfusion hcontra
                  · rintro ⟨q2, _, _, os2, hos2, h2, _⟩
                    injection hos2 with hos2e
                    subst hos2e
                    omega
                · intro i q2 os2 u hcontra
                  exact CreateResult.noConfusion hcontra
              · rw [if_neg hval2]
                by_cases hval10 : (validOptions os).length > 10
                · rw [if_pos hval10]
                  refine ⟨?_, ?_⟩
                  · simp only [CreateResult.isCreated]
                    constructor
                    · intro hcontra
                      exact Bool.noConfusion hcontra
                    · rintro ⟨q2, _, _, os2, hos2, _, h10⟩
                      injection hos2 with hos2e
                      subst hos2e
                      omega
                  · intro i q2 os2 u hcontra
                    exact CreateResult.noConfusion hcontra
                · rw [if_neg hval10]
                  refine ⟨?_, ?_⟩
                  · simp only [CreateResult.isCreated]
                    constructor
                    · intro _
                      exact ⟨q, rfl, hq, os, rfl, by omega, by omega⟩
                    · intro _
                      trivial
                  · intro i q2 os2 u heq
                    injection heq with h1 h2 h3 h4
                    exact ⟨os, rfl, h3.symm⟩

/-- C6 (witness): the amended acceptance condition applied to a concrete
accepted request and a concrete rejected one (a single valid option). -/
theorem createPoll_accepts_iff_witness :
    (createPoll "id0" none (some " Q ") (some [some "A", some " B "])).isCreated
      = true ∧
    (createPoll "id0" none (some "Q") (some [some "A", some " "])).isCreated
      = false := by
  constructor
  · exact (createPoll_accepts_iff "id0" none (some " Q ")
      (some [some "A", some " B "])).1.2
      ⟨" Q ", rfl, by decide, [some "A", some " B "], rfl, by decide, by decide⟩
  · have h := (createPoll_accepts_iff "id0" none (some "Q")
      (some [some "A", some " "])).1
    by_cases hc : (createPoll "id0" none (some "Q")
        (some [some "A", some " "])).isCreated = true
    · exfalso
      rcases h.1 hc with ⟨q2, hq2, _, os2, hos2, h2, _⟩
      injection hos2 with hos2e
      subst hos2e
      revert h2
      decide
    · simpa using hc

/-- C7 (counterexample): a publish in which every handle's write fails leaves
the poll mapped to an empty handle set — the per-poll entry is not deleted,
unlike the explicit unsubscribe path, so the no-empty-set invariant is
violated by the publish cleanup. -/
theorem publish_empty_entry_counterexample :
    publishClean [("p", [7])] "p" (fun _ => true) = [("p", [])] ∧
    ¬ noEmptyEntries [("p", ([] : List Nat))] ∧
    unsubscribe [("p", [7])] "p" 7 = [] := by
  refine ⟨by decide, by decide, by decide⟩

theorem regLookup_map_update (r : Registry) (pid : String)
    (g : List Nat → List Nat) :
    regLookup (r.map (fun e => if e.1 == pid then (e.1, g e.2) else e)) pid
      = (regLookup r pid).map g := by
  induction r with
  | nil => rfl
  | cons e r ih =>
      unfold regLookup
      rw [List.map_cons]
      by_cases h : (e.1 == pid) = true
      · rw [if_pos h]
        rw [List.find?_cons_of_pos (a := (e.1, g e.2)) _ h,
          List.find?_cons_of_pos (a := e) _ h]
        rfl
      · rw [if_neg h]
        rw [List.find?_cons_of_neg (a := e) _ h,
          List.find?_cons_of_neg (a := e) _ h]
        unfold regLookup at ih
        exact ih

/-- C7 (amended): subscribe and explicit unsubscribe preserve the
no-empty-set invariant; a publish write failure removes only the failing
handles, keeping the surviving ones, but unlike unsubscribe it leaves the
per-poll entry in place even when the set becomes empty. -/
theorem registry_no_empty_amended (r : Registry) (pid : String) (h : Nat)
    (fails : Nat → Bool) (hne : noEmptyEntries r) :
    noEmptyEntries (subscribe r pid h) ∧
    noEmptyEntries (unsubscribe r pid h) ∧
    (∀ l, regLookup r pid = some l → l ≠ [] →
      regLookup (publishClean r pid fails) pid
        = some (l.filter (fun x => !(fails x)))) := by
  refine ⟨?_, ?_, ?_⟩
  · unfold subscribe
    cases hl : regLookup r pid with
    | none =>
        intro e he
        rcases List.mem_append.1 he with he | he
        · exact hne e he
        · have : e = (pid, [h]) := by simpa using he
          rw [this]
          simp
    | some l =>
        intro e he
        rcases List.mem_map.1 he with ⟨e0, he0, hfe⟩
        by_cases hk : (e0.1 == pid) = true
        · rw [← hfe, if_pos hk]
          dsimp only
          by_cases hc : e0.2.contains h
          · rw [if_pos hc]
            exact hne e0 he0
          · rw [if_neg hc]
            simp
        · rw [← hfe, if_neg hk]
          exact hne e0 he0
  · unfold unsubscribe
    cases hl : regLookup r pid with
    | none => exact hne
    | some l =>
        dsimp only
        by_cases hrest : (l.filter (fun x => x ≠ h)).isEmpty = true
        · rw [if_pos hrest]
          intro e he
          exact hne e (List.mem_filter.1 he).1
        · rw [if_neg hrest]
          intro e he
          rcases List.mem_map.1 he with ⟨e0, he0, hfe⟩
          by_cases hk : (e0.1 == pid) = true
          · rw [← hfe, if_pos hk]
            dsimp only
            intro hc
            rw [hc] at hrest
            exact hrest rfl
          · rw [← hfe, if_neg hk]
            exact hne e0 he0
  · intro l hl hlne
    unfold publishClean
    rw [hl]
    dsimp only
    rw [if_neg (by simpa [List.isEmpty_iff] using hlne)]
    rw [regLookup_map_update]
    rw [hl]
    rfl

/-- C7 (witness): the amended theorem at concrete registries: a subscribe to
a new poll, an unsubscribe draining a poll's last handle, and a publish in
which one of two handles fails. -/
theorem registry_no_empty_amended_witness :
    noEmptyEntries (subscribe [("p", [7])] "q" 3) ∧
    noEmptyEntries (unsubscribe [("p", [7]), ("q", [3])] "p" 7) ∧
    regLookup (publishClean [("p", [7, 8])] "p" (fun x => x == 7)) "p"
      = some [8] := by
  refine ⟨?_, ?_, ?_⟩
  · exact (registry_no_empty_amended [("p", [7])] "q" 3 (fun _ => false)
      (by decide)).1
  · exact (registry_no_empty_amended [("p", [7]), ("q", [3])] "p" 7
      (fun _ => false) (by decide)).2.1
  · have h3 := (registry_no_empty_amended [("p", [7, 8])] "p" 0
      (fun x => x == 7) (by decide)).2.2 [7, 8] rfl (by decide)
    rw [h3]
    rfl

end PollRoom
